import Mathlib

/-!
Shallow embedding of the task-manager service core (routes.py, web_routes.py)
with the entity layer reconstructed from the specification where the model
module is not part of the available sources.

Timestamps are modelled as abstract ticks (Nat); the current time is an
explicit parameter wherever the source calls datetime.utcnow().
Python exceptions caught by a route's enclosing try/except are modelled with
Except Unit: an .error result corresponds to the generic 500 handler.
-/

namespace TaskManager

/-- Modelled from the spec: Task.status is the closed enumeration
{pending, in_progress, completed} (the model module defining TaskStatus is not
among the sources; §3 of the specification lists its members). -/
inductive TaskStatus where
  | pending
  | in_progress
  | completed
deriving DecidableEq

/-- Modelled from the spec: Task.priority is the closed enumeration
{low, medium, high}. -/
inductive TaskPriority where
  | low
  | medium
  | high
deriving DecidableEq

/-- The string value of each status member, as serialized and compared by the
routes (status.value in validate_task_data). -/
def TaskStatus.value : TaskStatus → String
  | .pending => "pending"
  | .in_progress => "in_progress"
  | .completed => "completed"

def TaskPriority.value : TaskPriority → String
  | .low => "low"
  | .medium => "medium"
  | .high => "high"

/-- TaskStatus(s): parse a string into the enumeration; none models the
ValueError Python raises on an unrecognized value. -/
def TaskStatus.ofString? : String → Option TaskStatus
  | "pending" => some .pending
  | "in_progress" => some .in_progress
  | "completed" => some .completed
  | _ => none

def TaskPriority.ofString? : String → Option TaskPriority
  | "low" => some .low
  | "medium" => some .medium
  | "high" => some .high
  | _ => none

/-- The list [status.value for status in TaskStatus] used by validation. -/
def statusValues : List String := ["pending", "in_progress", "completed"]

def priorityValues : List String := ["low", "medium", "high"]

/-- A JSON payload value as the routes inspect it. -/
inductive Value where
  | str (s : String)
  | int (n : Int)
  | bool (b : Bool)
  | null
deriving DecidableEq

/-- Python truthiness of a payload value: if data[field]. -/
def Value.truthy : Value → Bool
  | .str s => s != ""
  | .int n => n != 0
  | .bool b => b
  | .null => false

/-- Using a payload value where the code needs a string (len, regex match,
assignment to a string column of the typed entity record): non-strings model a
raised TypeError. -/
def Value.asStr : Value → Except Unit String
  | .str s => .ok s
  | _ => .error ()

/-- Using a payload value where the code needs an integer key. A Python bool is
an int (True is 1), so it coerces. -/
def Value.asInt : Value → Except Unit Int
  | .int n => .ok n
  | .bool b => .ok (if b then 1 else 0)
  | _ => .error ()

/-- A JSON object payload. -/
def Payload := List (String × Value)

/-- Membership and retrieval: field in data / data.get(field). -/
def lookup? (data : Payload) (k : String) : Option Value :=
  (List.find? (fun kv => kv.1 == k) data).map (fun kv => kv.2)

/-- data[k]: a missing key models a raised KeyError. -/
def getKey (data : Payload) (k : String) : Except Unit Value :=
  match lookup? data k with
  | some v => .ok v
  | none => .error ()

def Payload.isEmpty (data : Payload) : Bool :=
  match data with
  | [] => true
  | _ :: _ => false

/-- Characters the email regex accepts in the local part. -/
def isLocalChar (c : Char) : Bool :=
  c.isAlpha || c.isDigit || c == '.' || c == '_' || c == '%' || c == '+' || c == '-'

/-- Characters the email regex accepts in the domain before the final dot. -/
def isDomainChar (c : Char) : Bool :=
  c.isAlpha || c.isDigit || c == '.' || c == '-'

/-- Split a character list at its last dot: the pattern .[a-zA-Z]{2,}$ can
only match at the final dot because the TLD charset excludes dots. -/
def splitLastDot : List Char → Option (List Char × List Char)
  | [] => none
  | c :: rest =>
    match splitLastDot rest with
    | some (d, t) => some (c :: d, t)
    | none => if c == '.' then some ([], rest) else none

/-- Split a character list at every occurrence of a separator (the list-level
counterpart of splitting the email string on the at sign). -/
def splitChar (sep : Char) : List Char → List (List Char)
  | [] => [[]]
  | c :: rest =>
    match splitChar sep rest with
    | [] => if c == sep then [[], []] else [[c]]
    | x :: xs => if c == sep then [] :: x :: xs else (c :: x) :: xs

/-- re.match against the anchored pattern
local@domain.tld with local in [a-zA-Z0-9._%+-]+, domain in [a-zA-Z0-9.-]+ and
tld in [a-zA-Z]{2,}; the string matches only when it has exactly one at sign,
since neither charset admits one. -/
def validate_email (email : String) : Bool :=
  match splitChar '@' email.toList with
  | [lp, rest] =>
    !lp.isEmpty && lp.all isLocalChar &&
    (match splitLastDot rest with
     | some (d, t) =>
       !d.isEmpty && d.all isDomainChar && decide (2 ≤ t.length) && t.all Char.isAlpha
     | none => false)
  | _ => false

/-- The required-field loop shared by both validators: a missing or falsy
required field contributes an error. -/
def requiredErrors (data : Payload) (req : List String) : List String :=
  req.filterMap (fun f =>
    match lookup? data f with
    | none => some (f ++ " is required")
    | some v => if v.truthy then none else some (f ++ " is required"))

/-- The email branch of validate_user_data; a truthy non-string email models
the TypeError re.match raises. -/
def emailErrors (data : Payload) : Except Unit (List String) :=
  match lookup? data "email" with
  | none => .ok []
  | some v =>
    if v.truthy then
      match v with
      | .str s => .ok (if validate_email s then [] else ["Invalid email format"])
      | _ => .error ()
    else .ok []

/-- The username-length branch of validate_user_data; a truthy non-string
username models the TypeError len raises. -/
def usernameErrors (data : Payload) : Except Unit (List String) :=
  match lookup? data "username" with
  | none => .ok []
  | some v =>
    if v.truthy then
      match v with
      | .str s => .ok (if s.length < 3 then ["Username must be at least 3 characters"] else [])
      | _ => .error ()
    else .ok []

def validate_user_data (data : Payload) (req : List String) : Except Unit (List String) :=
  match emailErrors data, usernameErrors data with
  | .ok e, .ok u => .ok (requiredErrors data req ++ e ++ u)
  | .error x, _ => .error x
  | _, .error x => .error x

/-- The title-emptiness branch of validate_task_data: guarded by truthiness,
so the inner len < 1 test is evaluated only for non-empty strings. -/
def titleErrors (data : Payload) : Except Unit (List String) :=
  match lookup? data "title" with
  | none => .ok []
  | some v =>
    if v.truthy then
      match v with
      | .str s => .ok (if s.length < 1 then ["Title cannot be empty"] else [])
      | _ => .error ()
    else .ok []

/-- Enum-membership branch for status: the not-in test on a list of strings
raises nothing, so a truthy non-string simply fails membership. -/
def statusErrors (data : Payload) : List String :=
  match lookup? data "status" with
  | none => []
  | some v =>
    if v.truthy then
      if statusValues.any (fun sv => Value.str sv == v) then []
      else ["Status must be one of: pending, in_progress, completed"]
    else []

def priorityErrors (data : Payload) : List String :=
  match lookup? data "priority" with
  | none => []
  | some v =>
    if v.truthy then
      if priorityValues.any (fun pv => Value.str pv == v) then []
      else ["Priority must be one of: low, medium, high"]
    else []

def validate_task_data (data : Payload) (req : List String) : Except Unit (List String) :=
  match titleErrors data with
  | .error x => .error x
  | .ok tl => .ok (requiredErrors data req ++ tl ++ statusErrors data ++ priorityErrors data)

/-- Modelled from the spec: the User entity record of the missing model module
(§3): password_hash derived by a one-way hash, is_active defaulting true,
timestamps set at creation. -/
structure User where
  id : Int
  username : String
  email : String
  password_hash : String
  is_active : Bool
  created_at : Nat
  updated_at : Nat
deriving DecidableEq

/-- Modelled from the spec: the Task entity record of the missing model module
(§3): description defaults empty, status defaults pending, priority defaults
medium, due_date and completed_at optional and absent by default. -/
structure Task where
  id : Int
  title : String
  description : String
  status : TaskStatus
  priority : TaskPriority
  user_id : Int
  due_date : Option Nat
  completed_at : Option Nat
  created_at : Nat
  updated_at : Nat
deriving DecidableEq

/-- The committed relational state: the users and tasks tables. -/
structure Store where
  users : List User
  tasks : List Task
deriving DecidableEq

/-- Modelled from the spec: set_password applies a one-way hash; the hash
itself is opaque to every contract, so any injective tagging serves. -/
def hashPassword (pw : String) : String := "hash:" ++ pw

/-- Modelled from the spec: surrogate integer identity assigned at creation
(autoincrement primary key). -/
def freshUserId (s : Store) : Int :=
  (s.users.foldl (fun m u => max m u.id) 0) + 1

def freshTaskId (s : Store) : Int :=
  (s.tasks.foldl (fun m t => max m t.id) 0) + 1

/-- db.session.commit() of a pending change to one task row. -/
def commitTask (s : Store) (task_id : Int) (t : Task) : Store :=
  { s with tasks := s.tasks.map (fun x => if x.id == task_id then t else x) }

def commitUser (s : Store) (user_id : Int) (u : User) : Store :=
  { s with users := s.users.map (fun x => if x.id == user_id then u else x) }

/-- Modelled from the spec: datetime.fromisoformat is library code outside the
repository; the model accepts exactly YYYY-MM-DD digit strings with a
plausible month and day, encoding them as a number, and rejects everything
else (malformed value → none, the ValueError path). -/
def fromisoformat? (s : String) : Option Nat :=
  match s.toList with
  | [y1, y2, y3, y4, '-', m1, m2, '-', d1, d2] =>
    if [y1, y2, y3, y4, m1, m2, d1, d2].all Char.isDigit then
      let num := fun c : Char => c.toNat - 48
      let m := 10 * num m1 + num m2
      let d := 10 * num d1 + num d2
      if 1 ≤ m && m ≤ 12 && 1 ≤ d && d ≤ 31 then
        some ((1000 * num y1 + 100 * num y2 + 10 * num y3 + num y4) * 10000 + m * 100 + d)
      else none
    else none
  | _ => none

/-- An HTTP route outcome: a success body with its code, or an error code and
message. -/
inductive Resp (α : Type) where
  | ok (code : Nat) (body : α)
  | err (code : Nat) (msg : String)
deriving DecidableEq

def Resp.isErr {α : Type} : Resp α → Bool
  | .err _ _ => true
  | .ok _ _ => false

/-- Pagination metadata as the routes serialize it: page and per_page echo the
request-derived locals, total and pages come from the paginator. -/
structure PageMeta where
  page : Int
  per_page : Int
  total : Nat
  pages : Nat
deriving DecidableEq

/-- Modelled from the spec: query.paginate(page, per_page, error_out=False) of
the store library, which is outside the repository: the window of the result
list, total matching count and ceil(total / per_page) pages; a page beyond the
last yields an empty item list without erroring (§4.4 non-strict out-of-range
policy), and a non-positive page is treated as the first. -/
def paginate {α : Type} (xs : List α) (page per_page : Int) : List α × PageMeta :=
  let p : Nat := (if page < 1 then 1 else page).toNat
  let pp : Nat := per_page.toNat
  ((xs.drop ((p - 1) * pp)).take pp,
   { page := page, per_page := per_page, total := xs.length,
     pages := (xs.length + pp - 1) / pp })

/-- order_by(Task.created_at.desc()): insertion step. -/
def insertByCreatedDesc (t : Task) : List Task → List Task
  | [] => [t]
  | x :: xs => if x.created_at ≤ t.created_at then t :: x :: xs else x :: insertByCreatedDesc t xs

def sortByCreatedDesc : List Task → List Task
  | [] => []
  | t :: ts => insertByCreatedDesc t (sortByCreatedDesc ts)

/-- The shared status-filter step of the list endpoints: a falsy (absent or
empty) parameter applies no filter; an unrecognized value is the ValueError
branch. -/
def filterByStatus (q : List Task) (status : Option String) : Except String (List Task) :=
  match status with
  | none => .ok q
  | some st =>
    if st == "" then .ok q
    else
      match TaskStatus.ofString? st with
      | some e => .ok (q.filter (fun t => t.status == e))
      | none => .error ("Invalid status: " ++ st)

def filterByPriority (q : List Task) (priority : Option String) : Except String (List Task) :=
  match priority with
  | none => .ok q
  | some pr =>
    if pr == "" then .ok q
    else
      match TaskPriority.ofString? pr with
      | some e => .ok (q.filter (fun t => t.priority == e))
      | none => .error ("Invalid priority: " ++ pr)

/-- The user_id filter step of get_tasks and the web task list: a falsy
(absent or zero) integer applies no filter. -/
def filterByUser (q : List Task) (user_id : Option Int) : List Task :=
  match user_id with
  | none => q
  | some u => if u == 0 then q else q.filter (fun t => t.user_id == u)

/-- GET /api/users: page and per_page arrive already int-parsed (absent or
unparsable becomes the default), per_page clamped by min(_, 100). -/
def get_users (s : Store) (page per_page : Option Int) : Resp (List User × PageMeta) :=
  let pp := min (per_page.getD 10) 100
  Resp.ok 200 (paginate s.users (page.getD 1) pp)

/-- GET /api/tasks with the optional user_id/status/priority filters. -/
def get_tasks (s : Store) (page per_page user_id : Option Int)
    (status priority : Option String) : Resp (List Task × PageMeta) :=
  let pp := min (per_page.getD 10) 100
  match filterByStatus (filterByUser s.tasks user_id) status with
  | .error m => Resp.err 400 m
  | .ok q1 =>
    match filterByPriority q1 priority with
    | .error m => Resp.err 400 m
    | .ok q2 => Resp.ok 200 (paginate (sortByCreatedDesc q2) (page.getD 1) pp)

/-- GET /api/users/id/tasks. A missing user makes get_or_404 raise an
HTTPException, which the route's own except Exception turns into its 500. -/
def get_user_tasks (s : Store) (user_id : Int) (page per_page : Option Int)
    (status priority : Option String) : Resp (User × List Task × PageMeta) :=
  match s.users.find? (fun u => u.id == user_id) with
  | none => Resp.err 500 "Failed to fetch user tasks"
  | some user =>
    let pp := min (per_page.getD 10) 100
    match filterByStatus (s.tasks.filter (fun t => t.user_id == user_id)) status with
    | .error m => Resp.err 400 m
    | .ok q1 =>
      match filterByPriority q1 priority with
      | .error m => Resp.err 400 m
      | .ok q2 => Resp.ok 200 (user, paginate (sortByCreatedDesc q2) (page.getD 1) pp)

/-- GET /tasks of the web dashboard: an invalid status or priority filter only
records a flash message and the handler continues with that filter not
applied; per_page is the constant 10. The result is the flash list and the
rendered page's items with pagination. -/
def web_tasks (s : Store) (page : Option Int) (status priority : Option String)
    (user_id : Option Int) : List String × (List Task × PageMeta) :=
  let fq1 :=
    match filterByStatus s.tasks status with
    | .ok q => (([] : List String), q)
    | .error _ => (["Invalid status filter"], s.tasks)
  let fq2 :=
    match filterByPriority fq1.2 priority with
    | .ok q => (fq1.1, q)
    | .error _ => (fq1.1 ++ ["Invalid priority filter"], fq1.2)
  let q3 := filterByUser fq2.2 user_id
  (fq2.1, paginate (sortByCreatedDesc q3) (page.getD 1) 10)

/-- POST /api/users. -/
def create_user (s : Store) (now : Nat) (data : Payload) : Resp User × Store :=
  if data.isEmpty then (Resp.err 400 "No data provided", s)
  else
    match validate_user_data data ["username", "email", "password"] with
    | .error _ => (Resp.err 500 "Failed to create user", s)
    | .ok errors =>
      if errors.isEmpty then
        match getKey data "username" with
        | .error _ => (Resp.err 500 "Failed to create user", s)
        | .ok uv =>
          if (s.users.find? (fun u => Value.str u.username == uv)).isSome then
            (Resp.err 409 "Username already exists", s)
          else
            match getKey data "email" with
            | .error _ => (Resp.err 500 "Failed to create user", s)
            | .ok ev =>
              if (s.users.find? (fun u => Value.str u.email == ev)).isSome then
                (Resp.err 409 "Email already exists", s)
              else
                match uv.asStr, ev.asStr with
                | .ok un, .ok em =>
                  match getKey data "password" with
                  | .error _ => (Resp.err 500 "Failed to create user", s)
                  | .ok pv =>
                    match pv.asStr with
                    | .error _ => (Resp.err 500 "Failed to create user", s)
                    | .ok pw =>
                      let user : User :=
                        { id := freshUserId s, username := un, email := em,
                          password_hash := hashPassword pw, is_active := true,
                          created_at := now, updated_at := now }
                      (Resp.ok 201 user, { s with users := s.users ++ [user] })
                | _, _ => (Resp.err 500 "Failed to create user", s)
      else (Resp.err 400 "Validation failed", s)

/-- A partial-update step that can return early with a 409 conflict; the
carried user is the pending in-session entity at the moment of the return. -/
inductive UserStep where
  | ok (u : User)
  | conflict (u : User)

/-- The username block of update_user: skipped when the supplied value equals
the user's own current username; a collision with any stored username is the
409 return before the assignment. -/
def applyUsername (s : Store) (u : User) (data : Payload) : Except Unit UserStep :=
  match lookup? data "username" with
  | none => .ok (.ok u)
  | some v =>
    if v == Value.str u.username then .ok (.ok u)
    else
      if (s.users.find? (fun x => Value.str x.username == v)).isSome then
        .ok (.conflict u)
      else
        match v.asStr with
        | .ok un => .ok (.ok { u with username := un })
        | .error e => .error e

/-- The email block of update_user; the duplicate lookup runs against the
committed store (pending username changes do not affect an email equality
query). -/
def applyEmail (s : Store) (u : User) (data : Payload) : Except Unit UserStep :=
  match lookup? data "email" with
  | none => .ok (.ok u)
  | some v =>
    if v == Value.str u.email then .ok (.ok u)
    else
      if (s.users.find? (fun x => Value.str x.email == v)).isSome then
        .ok (.conflict u)
      else
        match v.asStr with
        | .ok em => .ok (.ok { u with email := em })
        | .error e => .error e

def applyPassword (u : User) (data : Payload) : Except Unit User :=
  match lookup? data "password" with
  | none => .ok u
  | some v =>
    if v.truthy then
      match v.asStr with
      | .ok pw => .ok { u with password_hash := hashPassword pw }
      | .error e => .error e
    else .ok u

/-- is_active takes bool(data[k]): plain truthiness. -/
def applyIsActive (u : User) (data : Payload) : User :=
  match lookup? data "is_active" with
  | none => u
  | some v => { u with is_active := v.truthy }

/-- PUT /api/users/id. The result carries the response, the committed store
and the pending in-session entity at the moment of return (none when the user
lookup itself failed). A missing user makes get_or_404 raise, and the
enclosing except Exception yields the 500 with a rollback. -/
def update_user (s : Store) (now : Nat) (user_id : Int) (data : Payload) :
    Resp User × Store × Option User :=
  match s.users.find? (fun u => u.id == user_id) with
  | none => (Resp.err 500 "Failed to update user", s, none)
  | some user0 =>
    if data.isEmpty then (Resp.err 400 "No data provided", s, some user0)
    else
      match validate_user_data data [] with
      | .error _ => (Resp.err 500 "Failed to update user", s, some user0)
      | .ok errors =>
        if errors.isEmpty then
          match applyUsername s user0 data with
          | .error _ => (Resp.err 500 "Failed to update user", s, some user0)
          | .ok (.conflict u) => (Resp.err 409 "Username already exists", s, some u)
          | .ok (.ok u1) =>
            match applyEmail s u1 data with
            | .error _ => (Resp.err 500 "Failed to update user", s, some user0)
            | .ok (.conflict u) => (Resp.err 409 "Email already exists", s, some u)
            | .ok (.ok u2) =>
              match applyPassword u2 data with
              | .error _ => (Resp.err 500 "Failed to update user", s, some user0)
              | .ok u3 =>
                let u5 := { applyIsActive u3 data with updated_at := now }
                (Resp.ok 200 u5, commitUser s user_id u5, some u5)
        else (Resp.err 400 "Validation failed", s, some user0)

/-- DELETE /api/users/id. Modelled from the spec: deleting a user cascades
delete to its tasks (§3; the relationship lives in the missing model module). -/
def delete_user (s : Store) (user_id : Int) : Resp String × Store :=
  match s.users.find? (fun u => u.id == user_id) with
  | none => (Resp.err 500 "Failed to delete user", s)
  | some _ =>
    (Resp.ok 200 "User deleted successfully",
     { users := s.users.filter (fun u => !(u.id == user_id)),
       tasks := s.tasks.filter (fun t => !(t.user_id == user_id)) })

def delete_task (s : Store) (task_id : Int) : Resp String × Store :=
  match s.tasks.find? (fun t => t.id == task_id) with
  | none => (Resp.err 500 "Failed to delete task", s)
  | some _ =>
    (Resp.ok 200 "Task deleted successfully",
     { s with tasks := s.tasks.filter (fun t => !(t.id == task_id)) })

/-- Outcome of a due_date block: either the (possibly updated) draft, or the
400 bad-format return carrying the draft as it stood at that point. -/
inductive DueOut where
  | ok (t : Task)
  | badFormat (t : Task)

/-- The status block of create_task: plain membership in the payload (no
truthiness guard), TaskStatus(v) raising on anything unrecognized, and no
completed_at logic. -/
def applyStatusCreate (data : Payload) (t : Task) : Except Unit Task :=
  match lookup? data "status" with
  | none => .ok t
  | some v =>
    match v.asStr with
    | .error e => .error e
    | .ok sv =>
      match TaskStatus.ofString? sv with
      | none => .error ()
      | some st => .ok { t with status := st }

def applyPriorityCreate (data : Payload) (t : Task) : Except Unit Task :=
  match lookup? data "priority" with
  | none => .ok t
  | some v =>
    match v.asStr with
    | .error e => .error e
    | .ok pv =>
      match TaskPriority.ofString? pv with
      | none => .error ()
      | some pr => .ok { t with priority := pr }

/-- The due_date block of create_task: guarded by truthiness, with no
else-branch clearing the field. -/
def applyDueDateCreate (data : Payload) (t : Task) : Except Unit DueOut :=
  match lookup? data "due_date" with
  | none => .ok (.ok t)
  | some v =>
    if v.truthy then
      match v.asStr with
      | .error e => .error e
      | .ok sv =>
        match fromisoformat? sv with
        | some d => .ok (.ok { t with due_date := some d })
        | none => .ok (.badFormat t)
    else .ok (.ok t)

/-- POST /api/tasks. The user existence check runs after field validation and
before the Task construction; the construction uses data.get('description', '')
and the entity defaults for status/priority. -/
def create_task (s : Store) (now : Nat) (data : Payload) : Resp Task × Store :=
  if data.isEmpty then (Resp.err 400 "No data provided", s)
  else
    match validate_task_data data ["title", "user_id"] with
    | .error _ => (Resp.err 500 "Failed to create task", s)
    | .ok errors =>
      if errors.isEmpty then
        match getKey data "user_id" with
        | .error _ => (Resp.err 500 "Failed to create task", s)
        | .ok uv =>
          match uv.asInt with
          | .error _ => (Resp.err 500 "Failed to create task", s)
          | .ok uid =>
            match s.users.find? (fun u => u.id == uid) with
            | none => (Resp.err 404 "User not found", s)
            | some _ =>
              match getKey data "title" with
              | .error _ => (Resp.err 500 "Failed to create task", s)
              | .ok tv =>
                match tv.asStr with
                | .error _ => (Resp.err 500 "Failed to create task", s)
                | .ok title =>
                  match (match lookup? data "description" with
                         | some v => v.asStr
                         | none => Except.ok "") with
                  | .error _ => (Resp.err 500 "Failed to create task", s)
                  | .ok desc =>
                    let base : Task :=
                      { id := freshTaskId s, title := title, description := desc,
                        status := TaskStatus.pending, priority := TaskPriority.medium,
                        user_id := uid, due_date := none, completed_at := none,
                        created_at := now, updated_at := now }
                    match applyStatusCreate data base with
                    | .error _ => (Resp.err 500 "Failed to create task", s)
                    | .ok t1 =>
                      match applyPriorityCreate data t1 with
                      | .error _ => (Resp.err 500 "Failed to create task", s)
                      | .ok t2 =>
                        match applyDueDateCreate data t2 with
                        | .error _ => (Resp.err 500 "Failed to create task", s)
                        | .ok (.badFormat _) =>
                          (Resp.err 400 "Invalid due_date format. Use ISO format.", s)
                        | .ok (.ok t3) =>
                          (Resp.ok 201 t3, { s with tasks := s.tasks ++ [t3] })
      else (Resp.err 400 "Validation failed", s)

def applyTitle (data : Payload) (t : Task) : Except Unit Task :=
  match lookup? data "title" with
  | none => .ok t
  | some v =>
    match v.asStr with
    | .ok sv => .ok { t with title := sv }
    | .error e => .error e

def applyDescr (data : Payload) (t : Task) : Except Unit Task :=
  match lookup? data "description" with
  | none => .ok t
  | some v =>
    match v.asStr with
    | .ok sv => .ok { t with description := sv }
    | .error e => .error e

/-- The status block of update_task: assign the parsed status, then derive
completed_at by comparing the old and new status. -/
def applyStatusUpdate (data : Payload) (now : Nat) (t : Task) : Except Unit Task :=
  match lookup? data "status" with
  | none => .ok t
  | some v =>
    match v.asStr with
    | .error e => .error e
    | .ok sv =>
      match TaskStatus.ofString? sv with
      | none => .error ()
      | some st =>
        let t1 := { t with status := st }
        if t.status ≠ TaskStatus.completed ∧ st = TaskStatus.completed then
          .ok { t1 with completed_at := some now }
        else if t.status = TaskStatus.completed ∧ st ≠ TaskStatus.completed then
          .ok { t1 with completed_at := none }
        else .ok t1

def applyPriorityUpdate (data : Payload) (t : Task) : Except Unit Task :=
  match lookup? data "priority" with
  | none => .ok t
  | some v =>
    match v.asStr with
    | .error e => .error e
    | .ok pv =>
      match TaskPriority.ofString? pv with
      | none => .error ()
      | some pr => .ok { t with priority := pr }

/-- The due_date block of update_task: a falsy value clears the field; a
malformed truthy string is the 400 return, carrying the draft unchanged by
this step but retaining every earlier block's mutation. -/
def applyDueDateUpdate (data : Payload) (t : Task) : Except Unit DueOut :=
  match lookup? data "due_date" with
  | none => .ok (.ok t)
  | some v =>
    if v.truthy then
      match v.asStr with
      | .error e => .error e
      | .ok sv =>
        match fromisoformat? sv with
        | some d => .ok (.ok { t with due_date := some d })
        | none => .ok (.badFormat t)
    else .ok (.ok { t with due_date := none })

/-- PUT /api/tasks/id. The result carries the response, the committed store
and the pending in-session task at the moment of return: the bad-due_date 400
returns inside the try block without a rollback, so its pending task keeps the
already-applied field changes, while the except-handler 500 path rolls back to
the committed row. -/
def update_task (s : Store) (now : Nat) (task_id : Int) (data : Payload) :
    Resp Task × Store × Option Task :=
  match s.tasks.find? (fun t => t.id == task_id) with
  | none => (Resp.err 500 "Failed to update task", s, none)
  | some task0 =>
    if data.isEmpty then (Resp.err 400 "No data provided", s, some task0)
    else
      match validate_task_data data [] with
      | .error _ => (Resp.err 500 "Failed to update task", s, some task0)
      | .ok errors =>
        if errors.isEmpty then
          match applyTitle data task0 with
          | .error _ => (Resp.err 500 "Failed to update task", s, some task0)
          | .ok t1 =>
            match applyDescr data t1 with
            | .error _ => (Resp.err 500 "Failed to update task", s, some task0)
            | .ok t2 =>
              match applyStatusUpdate data now t2 with
              | .error _ => (Resp.err 500 "Failed to update task", s, some task0)
              | .ok t3 =>
                match applyPriorityUpdate data t3 with
                | .error _ => (Resp.err 500 "Failed to update task", s, some task0)
                | .ok t4 =>
                  match applyDueDateUpdate data t4 with
                  | .error _ => (Resp.err 500 "Failed to update task", s, some task0)
                  | .ok (.badFormat td) =>
                    (Resp.err 400 "Invalid due_date format. Use ISO format.", s, some td)
                  | .ok (.ok t5) =>
                    let t6 := { t5 with updated_at := now }
                    (Resp.ok 200 t6, commitTask s task_id t6, some t6)
        else (Resp.err 400 "Validation failed", s, some task0)

/-- The specification's derived-state invariant for a task: completed_at is
non-null exactly when the status is completed. -/
def completedInv (t : Task) : Prop :=
  t.completed_at ≠ none ↔ t.status = TaskStatus.completed

instance (t : Task) : Decidable (completedInv t) := by
  unfold completedInv; infer_instance

/-! Concrete fixtures used by the closed theorems below. -/

def aliceUser : User :=
  { id := 1, username := "alice", email := "alice@example.com",
    password_hash := hashPassword "pw123456", is_active := true,
    created_at := 0, updated_at := 0 }

def bobUser : User :=
  { id := 2, username := "bobby", email := "bob@example.com",
    password_hash := hashPassword "pw123456", is_active := true,
    created_at := 0, updated_at := 0 }

def sampleTask : Task :=
  { id := 1, title := "Write docs", description := "", status := TaskStatus.pending,
    priority := TaskPriority.medium, user_id := 1, due_date := none, completed_at := none,
    created_at := 0, updated_at := 0 }

def sampleStore : Store := { users := [aliceUser, bobUser], tasks := [sampleTask] }

/-- The task create_task builds for the C1 counterexample payload. -/
def c1_task : Task :=
  { id := 2, title := "T", description := "", status := TaskStatus.completed,
    priority := TaskPriority.medium, user_id := 1, due_date := none, completed_at := none,
    created_at := 5, updated_at := 5 }

/-- The pending task update_task leaves behind on the bad-due_date path. -/
def c5_pending : Task := { sampleTask with title := "new" }

/-- The user update_user persists for the empty-username payload. -/
def c6_user : User := { aliceUser with username := "", updated_at := 7 }

/-- The task update_task persists for the empty-title payload. -/
def c7_task : Task := { sampleTask with title := "", updated_at := 3 }

/-- The task the successful completed-transition update produces. -/
def c2_task : Task :=
  { sampleTask with status := TaskStatus.completed, completed_at := some 9, updated_at := 9 }

/-- The draft a DueOut carries, whichever way the due_date block ended. -/
def DueOut.task : DueOut → Task
  | .ok t => t
  | .badFormat t => t

end TaskManager

namespace TaskManager

/-- C1, counterexample: a create-task request whose payload carries status
'completed' succeeds with 201 yet leaves completed_at null, so the returned
task violates the completed_at ⟺ completed invariant the claim asserts for
tasks created that way. -/
theorem c1_counterexample :
    create_task sampleStore 5
        [("title", Value.str "T"), ("user_id", Value.int 1), ("status", Value.str "completed")]
      = (Resp.ok 201 c1_task, { sampleStore with tasks := sampleStore.tasks ++ [c1_task] })
    ∧ c1_task.status = TaskStatus.completed
    ∧ c1_task.completed_at = none
    ∧ ¬ completedInv c1_task := by
  exact ⟨by decide, rfl, rfl, by decide⟩

/-- C3, counterexample: the web dashboard task list, given the invalid status
filter string 'bogus', does not produce a 400-class error: it records a flash
message and returns the unfiltered result set, here containing a task. -/
theorem c3_counterexample :
    web_tasks sampleStore none (some "bogus") none none
      = (["Invalid status filter"],
         ([sampleTask], { page := 1, per_page := 10, total := 1, pages := 1 })) := by
  decide

/-- C5, counterexample: an update-task request whose payload sets a new title
and a malformed due_date returns a 400 error, yet the pending in-session task
at that return already carries the new title — the pending entity state is not
what it was before the request began. -/
theorem c5_counterexample :
    update_task sampleStore 9 1 [("title", Value.str "new"), ("due_date", Value.str "nope")]
      = (Resp.err 400 "Invalid due_date format. Use ISO format.", sampleStore, some c5_pending)
    ∧ c5_pending ≠ sampleTask := by
  exact ⟨by decide, by decide⟩

/-- C6, counterexample: a payload whose username key holds the empty string
(shorter than 3 characters) passes validation with an empty error list when
username is not required, and update-user persists the empty username. -/
theorem c6_counterexample :
    validate_user_data [("username", Value.str "")] [] = Except.ok []
    ∧ update_user sampleStore 7 1 [("username", Value.str "")]
        = (Resp.ok 200 c6_user, commitUser sampleStore 1 c6_user, some c6_user)
    ∧ c6_user.username = ""
    ∧ c6_user.username.length < 3 := by
  exact ⟨rfl, by decide, rfl, by decide⟩

/-- C7, counterexample: a payload whose title key holds the empty string
passes task validation with an empty error list when title is not required,
and update-task sets the task's title to the empty string. -/
theorem c7_counterexample :
    validate_task_data [("title", Value.str "")] [] = Except.ok []
    ∧ update_task sampleStore 3 1 [("title", Value.str "")]
        = (Resp.ok 200 c7_task, commitTask sampleStore 1 c7_task, some c7_task)
    ∧ c7_task.title = "" := by
  exact ⟨rfl, by decide, rfl⟩

theorem asStr_ok {v : Value} {sv : String} (h : v.asStr = .ok sv) : v = .str sv := by
  cases v <;> simp [Value.asStr] at h
  simp [h]

theorem applyTitle_fields {data : Payload} {t t' : Task}
    (h : applyTitle data t = .ok t') :
    t'.status = t.status ∧ t'.completed_at = t.completed_at := by
  unfold applyTitle at h
  split at h
  · injection h with h; subst h; exact ⟨rfl, rfl⟩
  · split at h
    · injection h with h; subst h; exact ⟨rfl, rfl⟩
    · exact Except.noConfusion h

theorem applyDescr_fields {data : Payload} {t t' : Task}
    (h : applyDescr data t = .ok t') :
    t'.title = t.title ∧ t'.status = t.status ∧ t'.completed_at = t.completed_at := by
  unfold applyDescr at h
  split at h
  · injection h with h; subst h; exact ⟨rfl, rfl, rfl⟩
  · split at h
    · injection h with h; subst h; exact ⟨rfl, rfl, rfl⟩
    · exact Except.noConfusion h

theorem applyPriorityUpdate_fields {data : Payload} {t t' : Task}
    (h : applyPriorityUpdate data t = .ok t') :
    t'.title = t.title ∧ t'.status = t.status ∧ t'.completed_at = t.completed_at := by
  unfold applyPriorityUpdate at h
  split at h
  · injection h with h; subst h; exact ⟨rfl, rfl, rfl⟩
  · split at h
    · exact Except.noConfusion h
    · split at h
      · exact Except.noConfusion h
      · injection h with h; subst h; exact ⟨rfl, rfl, rfl⟩

theorem applyDueDateUpdate_fields {data : Payload} {t : Task} {r : DueOut}
    (h : applyDueDateUpdate data t = .ok r) :
    r.task.title = t.title ∧ r.task.status = t.status ∧ r.task.completed_at = t.completed_at := by
  unfold applyDueDateUpdate at h
  split at h
  · injection h with h; subst h; exact ⟨rfl, rfl, rfl⟩
  · split at h
    · split at h
      · exact Except.noConfusion h
      · split at h
        · injection h with h; subst h; exact ⟨rfl, rfl, rfl⟩
        · injection h with h; subst h; exact ⟨rfl, rfl, rfl⟩
    · injection h with h; subst h; exact ⟨rfl, rfl, rfl⟩

theorem applyPriorityCreate_fields {data : Payload} {t t' : Task}
    (h : applyPriorityCreate data t = .ok t') :
    t'.status = t.status ∧ t'.completed_at = t.completed_at := by
  unfold applyPriorityCreate at h
  split at h
  · injection h with h; subst h; exact ⟨rfl, rfl⟩
  · split at h
    · exact Except.noConfusion h
    · split at h
      · exact Except.noConfusion h
      · injection h with h; subst h; exact ⟨rfl, rfl⟩

theorem applyDueDateCreate_fields {data : Payload} {t : Task} {r : DueOut}
    (h : applyDueDateCreate data t = .ok r) :
    r.task.status = t.status ∧ r.task.completed_at = t.completed_at := by
  unfold applyDueDateCreate at h
  split at h
  · injection h with h; subst h; exact ⟨rfl, rfl⟩
  · split at h
    · split at h
      · exact Except.noConfusion h
      · split at h
        · injection h with h; subst h; exact ⟨rfl, rfl⟩
        · injection h with h; subst h; exact ⟨rfl, rfl⟩
    · injection h with h; subst h; exact ⟨rfl, rfl⟩

/-- The transition rule as the update-status block realises it, phrased
against the draft it receives: the three completed_at outcomes keyed by how
the old and new status relate, plus title preservation. -/
theorem applyStatusUpdate_spec {data : Payload} {now : Nat} {t t' : Task}
    (h : applyStatusUpdate data now t = .ok t') :
    t'.title = t.title
    ∧ (t.status ≠ TaskStatus.completed → t'.status = TaskStatus.completed →
        t'.completed_at = some now)
    ∧ (t.status = TaskStatus.completed → t'.status ≠ TaskStatus.completed →
        t'.completed_at = none)
    ∧ ((t.status = TaskStatus.completed ↔ t'.status = TaskStatus.completed) →
        t'.completed_at = t.completed_at) := by
  unfold applyStatusUpdate at h
  split at h
  · injection h with h; subst h
    refine ⟨rfl, ?_, ?_, fun _ => rfl⟩
    · intro hne heq; exact absurd heq hne
    · intro heq hne; exact absurd heq hne
  · split at h
    · exact Except.noConfusion h
    · split at h
      · exact Except.noConfusion h
      · rename_i st hof
        split at h
        · rename_i hcond
          injection h with h; subst h
          refine ⟨rfl, fun _ _ => rfl, ?_, ?_⟩
          · intro hc _; exact absurd hc hcond.1
          · intro hiff; exact absurd (hiff.mpr hcond.2) hcond.1
        · split at h
          · rename_i hcond1 hcond2
            injection h with h; subst h
            refine ⟨rfl, ?_, fun _ _ => rfl, ?_⟩
            · intro hne _; exact absurd hcond2.1 hne
            · intro hiff; exact absurd (hiff.mp hcond2.1) hcond2.2
          · rename_i hcond1 hcond2
            injection h with h; subst h
            refine ⟨rfl, ?_, ?_, fun _ => rfl⟩
            · intro hne heq; exact absurd ⟨hne, heq⟩ hcond1
            · intro heq hne; exact absurd ⟨heq, hne⟩ hcond2

/-- The status parser sends a string to completed exactly for 'completed'. -/
theorem ofString_eq_completed {sv : String} {st : TaskStatus}
    (h : TaskStatus.ofString? sv = some st) :
    (st = TaskStatus.completed ↔ sv = "completed") := by
  unfold TaskStatus.ofString? at h
  split at h
  · injection h with h; subst h; simp
  · injection h with h; subst h; simp
  · injection h with h; subst h; simp
  · exact Option.noConfusion h

/-- Characterization of the create-status block: absent key keeps the
default, present key requires a parseable string and assigns it; the
completed_at field is untouched either way. -/
theorem applyStatusCreate_spec {data : Payload} {t t' : Task}
    (h : applyStatusCreate data t = .ok t') :
    t'.completed_at = t.completed_at
    ∧ ((lookup? data "status" = none ∧ t'.status = t.status)
       ∨ (∃ sv st, lookup? data "status" = some (Value.str sv)
            ∧ TaskStatus.ofString? sv = some st ∧ t'.status = st)) := by
  unfold applyStatusCreate at h
  split at h
  · rename_i hl
    injection h with h; subst h
    exact ⟨rfl, Or.inl ⟨hl, rfl⟩⟩
  · rename_i v hl
    split at h
    · exact Except.noConfusion h
    · rename_i sv hs
      split at h
      · exact Except.noConfusion h
      · rename_i st hof
        injection h with h; subst h
        exact ⟨rfl, Or.inr ⟨sv, st, by rw [hl, asStr_ok hs], hof, rfl⟩⟩

/-- Case analysis of update_task: every early return carries an error response
with the committed store unchanged, and the one success path runs the full
block chain before committing. -/
theorem update_task_cases (s : Store) (now : Nat) (task_id : Int) (data : Payload) :
    ((update_task s now task_id data).1.isErr = true
      ∧ (update_task s now task_id data).2.1 = s)
    ∨ ∃ t0 t1 t2 t3 t4 t5,
        s.tasks.find? (fun t => t.id == task_id) = some t0
        ∧ applyTitle data t0 = .ok t1
        ∧ applyDescr data t1 = .ok t2
        ∧ applyStatusUpdate data now t2 = .ok t3
        ∧ applyPriorityUpdate data t3 = .ok t4
        ∧ applyDueDateUpdate data t4 = .ok (.ok t5)
        ∧ update_task s now task_id data
            = (Resp.ok 200 { t5 with updated_at := now },
               commitTask s task_id { t5 with updated_at := now },
               some { t5 with updated_at := now }) := by
  cases hfind : s.tasks.find? (fun t => t.id == task_id) with
  | none => refine Or.inl ⟨?_, ?_⟩ <;> simp [update_task, hfind, Resp.isErr]
  | some task0 =>
    cases hemp : data.isEmpty with
    | true => refine Or.inl ⟨?_, ?_⟩ <;> simp [update_task, hfind, hemp, Resp.isErr]
    | false =>
      cases hval : validate_task_data data [] with
      | error e => refine Or.inl ⟨?_, ?_⟩ <;> simp [update_task, hfind, hemp, hval, Resp.isErr]
      | ok errors =>
        cases herr : errors.isEmpty with
        | false =>
          refine Or.inl ⟨?_, ?_⟩ <;> simp [update_task, hfind, hemp, hval, herr, Resp.isErr]
        | true =>
          cases h1 : applyTitle data task0 with
          | error e =>
            refine Or.inl ⟨?_, ?_⟩ <;>
              simp [update_task, hfind, hemp, hval, herr, h1, Resp.isErr]
          | ok t1 =>
            cases h2 : applyDescr data t1 with
            | error e =>
              refine Or.inl ⟨?_, ?_⟩ <;>
                simp [update_task, hfind, hemp, hval, herr, h1, h2, Resp.isErr]
            | ok t2 =>
              cases h3 : applyStatusUpdate data now t2 with
              | error e =>
                refine Or.inl ⟨?_, ?_⟩ <;>
                  simp [update_task, hfind, hemp, hval, herr, h1, h2, h3, Resp.isErr]
              | ok t3 =>
                cases h4 : applyPriorityUpdate data t3 with
                | error e =>
                  refine Or.inl ⟨?_, ?_⟩ <;>
                    simp [update_task, hfind, hemp, hval, herr, h1, h2, h3, h4, Resp.isErr]
                | ok t4 =>
                  cases h5 : applyDueDateUpdate data t4 with
                  | error e =>
                    refine Or.inl ⟨?_, ?_⟩ <;>
                      simp [update_task, hfind, hemp, hval, herr, h1, h2, h3, h4, h5,
                        Resp.isErr]
                  | ok r =>
                    cases r with
                    | badFormat td =>
                      refine Or.inl ⟨?_, ?_⟩ <;>
                        simp [update_task, hfind, hemp, hval, herr, h1, h2, h3, h4, h5,
                          Resp.isErr]
                    | ok t5 =>
                      refine Or.inr ⟨task0, t1, t2, t3, t4, t5, rfl, h1, h2, h3, h4, h5, ?_⟩
                      simp [update_task, hfind, hemp, hval, herr, h1, h2, h3, h4, h5]

/-- Case analysis of create_task: every early return is an error with the
store unchanged; the success path builds the task from the entity defaults
and the payload blocks and appends it. -/
theorem create_task_cases (s : Store) (now : Nat) (data : Payload) :
    ((create_task s now data).1.isErr = true ∧ (create_task s now data).2 = s)
    ∨ ∃ uid title desc t1 t2 t3,
        applyStatusCreate data
            { id := freshTaskId s, title := title, description := desc,
              status := TaskStatus.pending, priority := TaskPriority.medium,
              user_id := uid, due_date := none, completed_at := none,
              created_at := now, updated_at := now } = .ok t1
        ∧ applyPriorityCreate data t1 = .ok t2
        ∧ applyDueDateCreate data t2 = .ok (.ok t3)
        ∧ create_task s now data = (Resp.ok 201 t3, { s with tasks := s.tasks ++ [t3] }) := by
  cases hemp : data.isEmpty with
  | true => refine Or.inl ⟨?_, ?_⟩ <;> simp [create_task, hemp, Resp.isErr]
  | false =>
    cases hval : validate_task_data data ["title", "user_id"] with
    | error e => refine Or.inl ⟨?_, ?_⟩ <;> simp [create_task, hemp, hval, Resp.isErr]
    | ok errors =>
      cases herr : errors.isEmpty with
      | false => refine Or.inl ⟨?_, ?_⟩ <;> simp [create_task, hemp, hval, herr, Resp.isErr]
      | true =>
        cases hk : getKey data "user_id" with
        | error e =>
          refine Or.inl ⟨?_, ?_⟩ <;> simp [create_task, hemp, hval, herr, hk, Resp.isErr]
        | ok uv =>
          cases hi : uv.asInt with
          | error e =>
            refine Or.inl ⟨?_, ?_⟩ <;>
              simp [create_task, hemp, hval, herr, hk, hi, Resp.isErr]
          | ok uid =>
            cases hu : s.users.find? (fun u => u.id == uid) with
            | none =>
              refine Or.inl ⟨?_, ?_⟩ <;>
                simp [create_task, hemp, hval, herr, hk, hi, hu, Resp.isErr]
            | some user =>
              cases ht : getKey data "title" with
              | error e =>
                refine Or.inl ⟨?_, ?_⟩ <;>
                  simp [create_task, hemp, hval, herr, hk, hi, hu, ht, Resp.isErr]
              | ok tv =>
                cases hts : tv.asStr with
                | error e =>
                  refine Or.inl ⟨?_, ?_⟩ <;>
                    simp [create_task, hemp, hval, herr, hk, hi, hu, ht, hts, Resp.isErr]
                | ok title =>
                  cases hd : (match lookup? data "description" with
                              | some v => v.asStr
                              | none => Except.ok "") with
                  | error e =>
                    refine Or.inl ⟨?_, ?_⟩ <;>
                      simp [create_task, hemp, hval, herr, hk, hi, hu, ht, hts, hd,
                        Resp.isErr]
                  | ok desc =>
                    cases h1 : applyStatusCreate data
                        { id := freshTaskId s, title := title, description := desc,
                          status := TaskStatus.pending, priority := TaskPriority.medium,
                          user_id := uid, due_date := none, completed_at := none,
                          created_at := now, updated_at := now } with
                    | error e =>
                      refine Or.inl ⟨?_, ?_⟩ <;>
                        simp [create_task, hemp, hval, herr, hk, hi, hu, ht, hts, hd, h1,
                          Resp.isErr]
                    | ok t1 =>
                      cases h2 : applyPriorityCreate data t1 with
                      | error e =>
                        refine Or.inl ⟨?_, ?_⟩ <;>
                          simp [create_task, hemp, hval, herr, hk, hi, hu, ht, hts, hd,
                            h1, h2, Resp.isErr]
                      | ok t2 =>
                        cases h3 : applyDueDateCreate data t2 with
                        | error e =>
                          refine Or.inl ⟨?_, ?_⟩ <;>
                            simp [create_task, hemp, hval, herr, hk, hi, hu, ht, hts, hd,
                              h1, h2, h3, Resp.isErr]
                        | ok r =>
                          cases r with
                          | badFormat td =>
                            refine Or.inl ⟨?_, ?_⟩ <;>
                              simp [create_task, hemp, hval, herr, hk, hi, hu, ht, hts, hd,
                                h1, h2, h3, Resp.isErr]
                          | ok t3 =>
                            refine Or.inr ⟨uid, title, desc, t1, t2, t3, h1, h2, h3, ?_⟩
                            simp [create_task, hemp, hval, herr, hk, hi, hu, ht, hts, hd,
                              h1, h2, h3]

theorem inv_of_fields {t t' : Task} (hs : t'.status = t.status)
    (hc : t'.completed_at = t.completed_at) (hinv : completedInv t) : completedInv t' := by
  unfold completedInv at hinv ⊢
  rw [hs, hc]
  exact hinv

theorem inv_of_transition {t t' : Task} {now : Nat}
    (h1 : t.status ≠ TaskStatus.completed → t'.status = TaskStatus.completed →
      t'.completed_at = some now)
    (h2 : t.status = TaskStatus.completed → t'.status ≠ TaskStatus.completed →
      t'.completed_at = none)
    (h3 : (t.status = TaskStatus.completed ↔ t'.status = TaskStatus.completed) →
      t'.completed_at = t.completed_at)
    (hinv : completedInv t) : completedInv t' := by
  unfold completedInv at hinv ⊢
  by_cases hc : t.status = TaskStatus.completed
  · by_cases hc' : t'.status = TaskStatus.completed
    · rw [h3 (iff_of_true hc hc')]
      exact ⟨fun _ => hc', fun _ => hinv.mpr hc⟩
    · rw [h2 hc hc']
      simp [hc']
  · by_cases hc' : t'.status = TaskStatus.completed
    · rw [h1 hc hc']
      simp [hc']
    · rw [h3 (iff_of_false hc hc')]
      constructor
      · intro hne; exact absurd (hinv.mp hne) hc
      · intro heq; exact absurd heq hc'

/-- C2: for an update-task request whose payload contains a status field and
which succeeds, exactly one of the three completed_at outcomes holds, keyed by
how the old status and the new status relate to completed: entering completed
stamps the current time, leaving completed clears the field, and any other
transition (including completed to completed) leaves it unchanged. -/
theorem c2_status_transition (s : Store) (now : Nat) (task_id : Int) (data : Payload)
    (t0 t' : Task) (s' : Store) (p : Option Task)
    (hfind : s.tasks.find? (fun t => t.id == task_id) = some t0)
    (_hst : (lookup? data "status").isSome = true)
    (h : update_task s now task_id data = (Resp.ok 200 t', s', p)) :
    (t0.status ≠ TaskStatus.completed → t'.status = TaskStatus.completed →
      t'.completed_at = some now)
    ∧ (t0.status = TaskStatus.completed → t'.status ≠ TaskStatus.completed →
      t'.completed_at = none)
    ∧ ((t0.status = TaskStatus.completed ↔ t'.status = TaskStatus.completed) →
      t'.completed_at = t0.completed_at) := by
  rcases update_task_cases s now task_id data with ⟨herr, _⟩ |
    ⟨u0, u1, u2, u3, u4, u5, hf, h1, h2, h3, h4, h5, heq⟩
  · rw [h] at herr
    simp [Resp.isErr] at herr
  · have hu0 : u0 = t0 := Option.some.inj (hf.symm.trans hfind)
    subst hu0
    have hx := h.symm.trans heq
    rw [Prod.mk.injEq, Prod.mk.injEq] at hx
    obtain ⟨hxa, hxb, hxc⟩ := hx
    injection hxa with hcode hbody
    subst hbody
    obtain ⟨ht1s, ht1c⟩ := applyTitle_fields h1
    obtain ⟨hd1, ht2s, ht2c⟩ := applyDescr_fields h2
    obtain ⟨hd2, htr1, htr2, htr3⟩ := applyStatusUpdate_spec h3
    obtain ⟨hd3, ht4s, ht4c⟩ := applyPriorityUpdate_fields h4
    obtain ⟨hd4, ht5s0, ht5c0⟩ := applyDueDateUpdate_fields h5
    have ht5s : u5.status = u4.status := ht5s0
    have ht5c : u5.completed_at = u4.completed_at := ht5c0
    have hs21 : u2.status = u0.status := ht2s.trans ht1s
    have hc21 : u2.completed_at = u0.completed_at := ht2c.trans ht1c
    have hs53 : u5.status = u3.status := ht5s.trans ht4s
    have hc53 : u5.completed_at = u3.completed_at := ht5c.trans ht4c
    refine ⟨?_, ?_, ?_⟩
    · intro hne heq5
      have heq5' : u5.status = TaskStatus.completed := heq5
      rw [hs53] at heq5'
      have hne2 : u2.status ≠ TaskStatus.completed := by rw [hs21]; exact hne
      have hres := htr1 hne2 heq5'
      show u5.completed_at = some now
      rw [hc53]
      exact hres
    · intro hc0 hne5
      have hne5' : u5.status ≠ TaskStatus.completed := hne5
      rw [hs53] at hne5'
      have hc2 : u2.status = TaskStatus.completed := by rw [hs21]; exact hc0
      have hres := htr2 hc2 hne5'
      show u5.completed_at = none
      rw [hc53]
      exact hres
    · intro hiff
      have hiff' : u2.status = TaskStatus.completed ↔ u3.status = TaskStatus.completed := by
        rw [hs21, ← hs53]
        exact hiff
      have hres := htr3 hiff'
      show u5.completed_at = u0.completed_at
      rw [hc53, hres]
      exact hc21

theorem c2_witness : c2_task.completed_at = some 9 := by
  have h := c2_status_transition sampleStore 9 1 [("status", Value.str "completed")]
    sampleTask c2_task (commitTask sampleStore 1 c2_task) (some c2_task)
    rfl rfl (by decide)
  exact h.1 (by decide) (by decide)

/-- C1, amended: the completed_at ⟺ completed invariant is preserved by every
update-task operation, and create-task always leaves completed_at null — so a
created task satisfies the invariant exactly when its payload status is not
the string completed; a create request carrying status completed produces a
violating task (see the counterexample). -/
theorem c1_completed_invariant :
    (∀ (s : Store) (now : Nat) (task_id : Int) (data : Payload),
        (∀ t ∈ s.tasks, completedInv t) →
        ∀ t2 ∈ (update_task s now task_id data).2.1.tasks, completedInv t2)
    ∧ (∀ (s : Store) (now : Nat) (data : Payload) (t : Task) (s2 : Store),
        create_task s now data = (Resp.ok 201 t, s2) →
        t.completed_at = none
        ∧ (t.status = TaskStatus.completed ↔
            lookup? data "status" = some (Value.str "completed"))) := by
  constructor
  · intro s now task_id data hinv t2 hmem
    rcases update_task_cases s now task_id data with ⟨_, hstore⟩ |
      ⟨u0, u1, u2, u3, u4, u5, hf, h1, h2, h3, h4, h5, heq⟩
    · rw [hstore] at hmem
      exact hinv t2 hmem
    · rw [heq] at hmem
      unfold commitTask at hmem
      simp only [List.mem_map] at hmem
      obtain ⟨x, hx, hfx⟩ := hmem
      obtain ⟨ht1s, ht1c⟩ := applyTitle_fields h1
      obtain ⟨hd1, ht2s, ht2c⟩ := applyDescr_fields h2
      obtain ⟨hd2, htr1, htr2, htr3⟩ := applyStatusUpdate_spec h3
      obtain ⟨hd3, ht4s, ht4c⟩ := applyPriorityUpdate_fields h4
      obtain ⟨hd4, ht5s0, ht5c0⟩ := applyDueDateUpdate_fields h5
      have hinv0 : completedInv u0 := hinv u0 (List.mem_of_find?_eq_some hf)
      have hinv2 : completedInv u2 :=
        inv_of_fields (ht2s.trans ht1s) (ht2c.trans ht1c) hinv0
      have hinv3 : completedInv u3 := inv_of_transition htr1 htr2 htr3 hinv2
      have hinv5 : completedInv u5 :=
        inv_of_fields ((ht5s0 : u5.status = u4.status).trans ht4s)
          ((ht5c0 : u5.completed_at = u4.completed_at).trans ht4c) hinv3
      have hinvT : completedInv { u5 with updated_at := now } :=
        inv_of_fields rfl rfl hinv5
      by_cases hid : (x.id == task_id) = true
      · rw [if_pos hid] at hfx
        rw [← hfx]
        exact hinvT
      · rw [if_neg hid] at hfx
        rw [← hfx]
        exact hinv x hx
  · intro s now data t s2 h
    rcases create_task_cases s now data with ⟨herr, _⟩ |
      ⟨uid, title, desc, t1a, t2a, t3a, h1, h2, h3, heq⟩
    · rw [h] at herr
      simp [Resp.isErr] at herr
    · have hx := h.symm.trans heq
      rw [Prod.mk.injEq] at hx
      obtain ⟨hxa, hxb⟩ := hx
      injection hxa with hcode hbody
      subst hbody
      obtain ⟨hc1, hrest⟩ := applyStatusCreate_spec h1
      obtain ⟨hs2, hc2⟩ := applyPriorityCreate_fields h2
      obtain ⟨hs3, hc3⟩ := applyDueDateCreate_fields h3
      have hs3' : t.status = t2a.status := hs3
      have hc3' : t.completed_at = t2a.completed_at := hc3
      constructor
      · rw [hc3', hc2, hc1]
      · rcases hrest with ⟨hnone, hsame⟩ | ⟨sv, st, hl, hof, hset⟩
        · rw [hs3', hs2, hsame, hnone]
          simp
        · rw [hs3', hs2, hset, hl, ofString_eq_completed hof]
          simp

theorem c1_witness : completedInv c2_task ∧ c1_task.completed_at = none := by
  refine ⟨c1_completed_invariant.1 sampleStore 9 1 [("status", Value.str "completed")]
    (by decide) c2_task (by decide),
    (c1_completed_invariant.2 sampleStore 5
      [("title", Value.str "T"), ("user_id", Value.int 1), ("status", Value.str "completed")]
      c1_task { sampleStore with tasks := sampleStore.tasks ++ [c1_task] } (by decide)).1⟩

theorem create_user_cases (s : Store) (now : Nat) (data : Payload) :
    (create_user s now data).1.isErr = false ∨ (create_user s now data).2 = s := by
  unfold create_user
  repeat' split
  all_goals first
    | exact Or.inl rfl
    | exact Or.inr rfl

theorem update_user_cases (s : Store) (now : Nat) (user_id : Int) (data : Payload) :
    (update_user s now user_id data).1.isErr = false
    ∨ (update_user s now user_id data).2.1 = s := by
  unfold update_user
  repeat' split
  all_goals first
    | exact Or.inl rfl
    | exact Or.inr rfl

theorem delete_user_cases (s : Store) (user_id : Int) :
    (delete_user s user_id).1.isErr = false ∨ (delete_user s user_id).2 = s := by
  unfold delete_user
  split
  · exact Or.inr rfl
  · exact Or.inl rfl

theorem delete_task_cases (s : Store) (task_id : Int) :
    (delete_task s task_id).1.isErr = false ∨ (delete_task s task_id).2 = s := by
  unfold delete_task
  split
  · exact Or.inr rfl
  · exact Or.inl rfl

/-- C5, amended: whenever a write operation returns an error response the
persisted store is exactly what it was before the request; the pending
in-session entity, however, is not always restored — the update-task
invalid-due_date 400 path returns without a rollback and its pending task
keeps the already-applied field changes (see the counterexample). -/
theorem c5_err_store_unchanged :
    (∀ (s : Store) (now : Nat) (data : Payload),
        (create_user s now data).1.isErr = true → (create_user s now data).2 = s)
    ∧ (∀ (s : Store) (now : Nat) (uid : Int) (data : Payload),
        (update_user s now uid data).1.isErr = true → (update_user s now uid data).2.1 = s)
    ∧ (∀ (s : Store) (now : Nat) (data : Payload),
        (create_task s now data).1.isErr = true → (create_task s now data).2 = s)
    ∧ (∀ (s : Store) (now : Nat) (tid : Int) (data : Payload),
        (update_task s now tid data).1.isErr = true → (update_task s now tid data).2.1 = s)
    ∧ (∀ (s : Store) (uid : Int),
        (delete_user s uid).1.isErr = true → (delete_user s uid).2 = s)
    ∧ (∀ (s : Store) (tid : Int),
        (delete_task s tid).1.isErr = true → (delete_task s tid).2 = s) := by
  refine ⟨?_, ?_, ?_, ?_, ?_, ?_⟩
  · intro s now data h
    rcases create_user_cases s now data with hf | hs
    · rw [h] at hf; exact absurd hf (by simp)
    · exact hs
  · intro s now uid data h
    rcases update_user_cases s now uid data with hf | hs
    · rw [h] at hf; exact absurd hf (by simp)
    · exact hs
  · intro s now data h
    rcases create_task_cases s now data with ⟨_, hs⟩ | ⟨_, _, _, _, _, _, _, _, _, heq⟩
    · exact hs
    · rw [heq] at h; simp [Resp.isErr] at h
  · intro s now tid data h
    rcases update_task_cases s now tid data with ⟨_, hs⟩ |
      ⟨_, _, _, _, _, _, _, _, _, _, _, _, heq⟩
    · exact hs
    · rw [heq] at h; simp [Resp.isErr] at h
  · intro s uid h
    rcases delete_user_cases s uid with hf | hs
    · rw [h] at hf; exact absurd hf (by simp)
    · exact hs
  · intro s tid h
    rcases delete_task_cases s tid with hf | hs
    · rw [h] at hf; exact absurd hf (by simp)
    · exact hs

theorem c5_witness :
    (create_user sampleStore 0 []).2 = sampleStore
    ∧ (update_user sampleStore 0 99 []).2.1 = sampleStore
    ∧ (create_task sampleStore 0 []).2 = sampleStore
    ∧ (update_task sampleStore 0 99 []).2.1 = sampleStore
    ∧ (delete_user sampleStore 99).2 = sampleStore
    ∧ (delete_task sampleStore 99).2 = sampleStore := by
  exact ⟨c5_err_store_unchanged.1 sampleStore 0 [] (by decide),
    c5_err_store_unchanged.2.1 sampleStore 0 99 [] (by decide),
    c5_err_store_unchanged.2.2.1 sampleStore 0 [] (by decide),
    c5_err_store_unchanged.2.2.2.1 sampleStore 0 99 [] (by decide),
    c5_err_store_unchanged.2.2.2.2.1 sampleStore 99 (by decide),
    c5_err_store_unchanged.2.2.2.2.2 sampleStore 99 (by decide)⟩

/-- A non-empty username string shorter than 3 characters always makes the
username branch of user validation produce its error. -/
theorem short_username_errors {data : Payload} {un : String}
    (hl : lookup? data "username" = some (Value.str un)) (hne : un ≠ "")
    (hlen : un.length < 3) :
    usernameErrors data = .ok ["Username must be at least 3 characters"] := by
  unfold usernameErrors
  rw [hl]
  simp [Value.truthy, hne, hlen]

theorem validate_user_short {data : Payload} {req : List String} {un : String}
    {errors : List String}
    (hl : lookup? data "username" = some (Value.str un)) (hne : un ≠ "")
    (hlen : un.length < 3)
    (hval : validate_user_data data req = .ok errors) : errors ≠ [] := by
  unfold validate_user_data at hval
  rw [short_username_errors hl hne hlen] at hval
  cases he : emailErrors data with
  | error e => rw [he] at hval; exact Except.noConfusion hval
  | ok e =>
    rw [he] at hval
    injection hval with hval
    rw [← hval]
    simp

theorem lookup_ne_nil {data : Payload} {k : String} {v : Value}
    (hl : lookup? data k = some v) : data.isEmpty = false := by
  cases data with
  | nil => simp [lookup?, List.find?] at hl
  | cons a l => rfl

/-- C6, amended: a username key holding a non-empty string shorter than 3
characters always yields a non-empty validation error list, and neither
create-user nor update-user persists it; the empty-string username, however,
slips past the truthiness guard and can be persisted by update-user (see the
counterexample). -/
theorem c6_username_length :
    (∀ (data : Payload) (req : List String) (un : String) (errors : List String),
        lookup? data "username" = some (Value.str un) → un ≠ "" → un.length < 3 →
        validate_user_data data req = .ok errors → errors ≠ [])
    ∧ (∀ (s : Store) (now : Nat) (data : Payload) (un : String),
        lookup? data "username" = some (Value.str un) → un ≠ "" → un.length < 3 →
        (create_user s now data).1.isErr = true ∧ (create_user s now data).2 = s)
    ∧ (∀ (s : Store) (now : Nat) (uid : Int) (data : Payload) (un : String),
        lookup? data "username" = some (Value.str un) → un ≠ "" → un.length < 3 →
        (update_user s now uid data).1.isErr = true ∧ (update_user s now uid data).2.1 = s) := by
  refine ⟨?_, ?_, ?_⟩
  · intro data req un errors hl hne hlen hval
    exact validate_user_short hl hne hlen hval
  · intro s now data un hl hne hlen
    have hde : data.isEmpty = false := lookup_ne_nil hl
    cases hv : validate_user_data data ["username", "email", "password"] with
    | error e => constructor <;> simp [create_user, hde, hv, Resp.isErr]
    | ok errors =>
      have hne2 : errors ≠ [] := validate_user_short hl hne hlen hv
      have herr : errors.isEmpty = false := by
        cases errors with
        | nil => exact absurd rfl hne2
        | cons a l => rfl
      constructor <;> simp [create_user, hde, hv, herr, Resp.isErr]
  · intro s now uid data un hl hne hlen
    have hde : data.isEmpty = false := lookup_ne_nil hl
    cases hf : s.users.find? (fun u => u.id == uid) with
    | none => constructor <;> simp [update_user, hf, Resp.isErr]
    | some u0 =>
      cases hv : validate_user_data data [] with
      | error e => constructor <;> simp [update_user, hf, hde, hv, Resp.isErr]
      | ok errors =>
        have hne2 : errors ≠ [] := validate_user_short hl hne hlen hv
        have herr : errors.isEmpty = false := by
          cases errors with
          | nil => exact absurd rfl hne2
          | cons a l => rfl
        constructor <;> simp [update_user, hf, hde, hv, herr, Resp.isErr]

theorem c6_witness :
    (["Username must be at least 3 characters"] : List String) ≠ []
    ∧ (create_user sampleStore 0 [("username", Value.str "ab")]).2 = sampleStore
    ∧ (update_user sampleStore 0 1 [("username", Value.str "ab")]).2.1 = sampleStore := by
  exact ⟨c6_username_length.1 [("username", Value.str "ab")] []
      "ab" ["Username must be at least 3 characters"] rfl (by decide) (by decide) rfl,
    (c6_username_length.2.1 sampleStore 0 [("username", Value.str "ab")] "ab"
      rfl (by decide) (by decide)).2,
    (c6_username_length.2.2 sampleStore 0 1 [("username", Value.str "ab")] "ab"
      rfl (by decide) (by decide)).2⟩

/-- C7, amended: the dedicated empty-title rule of task validation can never
fire (its truthiness guard excludes the empty string, under which the length
test cannot fail), so an empty title is rejected only through the
required-field check; update-task, which requires no fields, therefore accepts
a title key holding the empty string and sets the task's title to it. -/
theorem c7_empty_title :
    (∀ (data : Payload) (l : List String), titleErrors data = .ok l → l = [])
    ∧ (∀ (data : Payload), lookup? data "title" = some (Value.str "") →
        "title is required" ∈ requiredErrors data ["title", "user_id"])
    ∧ (∀ (s : Store) (now : Nat) (tid : Int) (data : Payload) (t' : Task) (s' : Store)
        (p : Option Task),
        lookup? data "title" = some (Value.str "") →
        update_task s now tid data = (Resp.ok 200 t', s', p) → t'.title = "") := by
  refine ⟨?_, ?_, ?_⟩
  · intro data l h
    unfold titleErrors at h
    split at h
    · injection h with h; exact h.symm
    · rename_i v hl
      split at h
      · rename_i htr
        split at h
        · rename_i sv
          split at h
          · rename_i hlen
            have hz : sv.length = 0 := by omega
            have hz2 : sv = "" := by
              cases sv with
              | mk ldata =>
                cases ldata with
                | nil => rfl
                | cons c cs => simp [String.length] at hz
            subst hz2
            simp [Value.truthy] at htr
          · injection h with h; exact h.symm
        · exact Except.noConfusion h
      · injection h with h; exact h.symm
  · intro data hl
    simp [requiredErrors, List.filterMap_cons, hl, Value.truthy]
  · intro s now tid data t' s' p hl h
    rcases update_task_cases s now tid data with ⟨herr, _⟩ |
      ⟨u0, u1, u2, u3, u4, u5, hf, h1, h2, h3, h4, h5, heq⟩
    · rw [h] at herr; simp [Resp.isErr] at herr
    · have hx := h.symm.trans heq
      rw [Prod.mk.injEq, Prod.mk.injEq] at hx
      obtain ⟨hxa, _, _⟩ := hx
      injection hxa with hcode hbody
      subst hbody
      have hu1 : u1.title = "" := by
        unfold applyTitle at h1
        rw [hl] at h1
        simp only [Value.asStr] at h1
        injection h1 with h1
        rw [← h1]
      obtain ⟨hd1, _, _⟩ := applyDescr_fields h2
      obtain ⟨hd2, _, _, _⟩ := applyStatusUpdate_spec h3
      obtain ⟨hd3, _, _⟩ := applyPriorityUpdate_fields h4
      obtain ⟨hd4, _, _⟩ := applyDueDateUpdate_fields h5
      have hd4' : u5.title = u4.title := hd4
      show u5.title = ""
      rw [hd4', hd3, hd2, hd1, hu1]

theorem c7_witness : c7_task.title = "" := by
  exact c7_empty_title.2.2 sampleStore 3 1 [("title", Value.str "")] c7_task
    (commitTask sampleStore 1 c7_task) (some c7_task) rfl (by decide)

/-- C9: a create-task request that passes field validation but whose user_id
references no stored user fails with 404 (not 400) and leaves the store
unchanged. -/
theorem c9_create_task_404 (s : Store) (now : Nat) (data : Payload) (uid : Int)
    (hlu : lookup? data "user_id" = some (Value.int uid))
    (hval : validate_task_data data ["title", "user_id"] = .ok [])
    (hfind : s.users.find? (fun u => u.id == uid) = none) :
    create_task s now data = (Resp.err 404 "User not found", s) := by
  have hde : data.isEmpty = false := lookup_ne_nil hlu
  simp [create_task, hde, hval, getKey, hlu, Value.asInt, hfind]

theorem c9_witness :
    create_task sampleStore 0 [("title", Value.str "T"), ("user_id", Value.int 99)]
      = (Resp.err 404 "User not found", sampleStore) := by
  exact c9_create_task_404 sampleStore 0
    [("title", Value.str "T"), ("user_id", Value.int 99)] 99 rfl rfl rfl

/-- C8: an update-user request supplying the user's own current username and
email succeeds without a conflict, while supplying a username or email that
exactly equals another stored user's value returns the 409 conflict with the
store unchanged. -/
theorem c8_update_user_conflicts (s : Store) (now : Nat) (u : User)
    (hfind : s.users.find? (fun x => x.id == u.id) = some u) :
    (3 ≤ u.username.length → validate_email u.email = true →
      (update_user s now u.id
          [("username", Value.str u.username), ("email", Value.str u.email)]).1
        = Resp.ok 200 { u with updated_at := now })
    ∧ (∀ u2, u2 ∈ s.users → u2.username ≠ u.username → 3 ≤ u2.username.length →
        update_user s now u.id [("username", Value.str u2.username)]
          = (Resp.err 409 "Username already exists", s, some u))
    ∧ (∀ u2, u2 ∈ s.users → u2.email ≠ u.email → validate_email u2.email = true →
        update_user s now u.id [("email", Value.str u2.email)]
          = (Resp.err 409 "Email already exists", s, some u)) := by
  refine ⟨?_, ?_, ?_⟩
  · intro hlen hve
    have hne : u.username ≠ "" := by
      intro hh; rw [hh] at hlen; simp at hlen
    have hnee : u.email ≠ "" := by
      intro hh; rw [hh] at hve; exact absurd hve (by decide)
    have hval : validate_user_data
        [("username", Value.str u.username), ("email", Value.str u.email)] [] = .ok [] := by
      unfold validate_user_data
      have he : emailErrors
          [("username", Value.str u.username), ("email", Value.str u.email)] = .ok [] := by
        unfold emailErrors
        have hl : lookup? [("username", Value.str u.username), ("email", Value.str u.email)]
            "email" = some (Value.str u.email) := by simp [lookup?, List.find?]
        rw [hl]
        simp [Value.truthy, hnee, hve]
      have hu2 : usernameErrors
          [("username", Value.str u.username), ("email", Value.str u.email)] = .ok [] := by
        unfold usernameErrors
        have hl : lookup? [("username", Value.str u.username), ("email", Value.str u.email)]
            "username" = some (Value.str u.username) := by simp [lookup?, List.find?]
        rw [hl]
        have hnl : ¬ (u.username.length < 3) := by omega
        simp [Value.truthy, hne, hnl]
      rw [he, hu2]
      simp [requiredErrors]
    have hau : applyUsername s u
        [("username", Value.str u.username), ("email", Value.str u.email)] = .ok (.ok u) := by
      unfold applyUsername
      have hl : lookup? [("username", Value.str u.username), ("email", Value.str u.email)]
          "username" = some (Value.str u.username) := by simp [lookup?, List.find?]
      rw [hl]
      simp
    have hae : applyEmail s u
        [("username", Value.str u.username), ("email", Value.str u.email)] = .ok (.ok u) := by
      unfold applyEmail
      have hl : lookup? [("username", Value.str u.username), ("email", Value.str u.email)]
          "email" = some (Value.str u.email) := by simp [lookup?, List.find?]
      rw [hl]
      simp
    have hap : applyPassword u
        [("username", Value.str u.username), ("email", Value.str u.email)] = .ok u := by
      unfold applyPassword
      have hl : lookup? [("username", Value.str u.username), ("email", Value.str u.email)]
          "password" = none := by simp [lookup?, List.find?]
      rw [hl]
    have hia : applyIsActive u
        [("username", Value.str u.username), ("email", Value.str u.email)] = u := by
      unfold applyIsActive
      have hl : lookup? [("username", Value.str u.username), ("email", Value.str u.email)]
          "is_active" = none := by simp [lookup?, List.find?]
      rw [hl]
    simp [update_user, hfind, hval, hau, hae, hap, hia, Payload.isEmpty]
  · intro u2 hmem hneu hlen2
    have hne2 : u2.username ≠ "" := by
      intro hh; rw [hh] at hlen2; simp at hlen2
    have hval : validate_user_data [("username", Value.str u2.username)] [] = .ok [] := by
      unfold validate_user_data
      have he : emailErrors [("username", Value.str u2.username)] = .ok [] := by
        unfold emailErrors
        have hl : lookup? [("username", Value.str u2.username)] "email" = none := by
          simp [lookup?, List.find?]
        rw [hl]
      have hu3 : usernameErrors [("username", Value.str u2.username)] = .ok [] := by
        unfold usernameErrors
        have hl : lookup? [("username", Value.str u2.username)] "username"
            = some (Value.str u2.username) := by simp [lookup?, List.find?]
        rw [hl]
        have hnl : ¬ (u2.username.length < 3) := by omega
        simp [Value.truthy, hne2, hnl]
      rw [he, hu3]
      simp [requiredErrors]
    have hau : applyUsername s u [("username", Value.str u2.username)]
        = .ok (.conflict u) := by
      unfold applyUsername
      have hl : lookup? [("username", Value.str u2.username)] "username"
          = some (Value.str u2.username) := by simp [lookup?, List.find?]
      rw [hl]
      have hneq : (Value.str u2.username == Value.str u.username) = false := by
        simp [hneu]
      have hsome : (s.users.find?
          (fun x => Value.str x.username == Value.str u2.username)).isSome = true := by
        rw [List.find?_isSome]
        exact ⟨u2, hmem, by simp⟩
      simp [hneq, hsome]
    simp [update_user, hfind, hval, hau, Payload.isEmpty]
  · intro u2 hmem hnee hve2
    have hne2 : u2.email ≠ "" := by
      intro hh; rw [hh] at hve2; exact absurd hve2 (by decide)
    have hval : validate_user_data [("email", Value.str u2.email)] [] = .ok [] := by
      unfold validate_user_data
      have he : emailErrors [("email", Value.str u2.email)] = .ok [] := by
        unfold emailErrors
        have hl : lookup? [("email", Value.str u2.email)] "email"
            = some (Value.str u2.email) := by simp [lookup?, List.find?]
        rw [hl]
        simp [Value.truthy, hne2, hve2]
      have hu3 : usernameErrors [("email", Value.str u2.email)] = .ok [] := by
        unfold usernameErrors
        have hl : lookup? [("email", Value.str u2.email)] "username" = none := by
          simp [lookup?, List.find?]
        rw [hl]
      rw [he, hu3]
      simp [requiredErrors]
    have hau : applyUsername s u [("email", Value.str u2.email)] = .ok (.ok u) := by
      unfold applyUsername
      have hl : lookup? [("email", Value.str u2.email)] "username" = none := by
        simp [lookup?, List.find?]
      rw [hl]
    have hae : applyEmail s u [("email", Value.str u2.email)] = .ok (.conflict u) := by
      unfold applyEmail
      have hl : lookup? [("email", Value.str u2.email)] "email"
          = some (Value.str u2.email) := by simp [lookup?, List.find?]
      rw [hl]
      have hneq : (Value.str u2.email == Value.str u.email) = false := by
        simp [hnee]
      have hsome : (s.users.find?
          (fun x => Value.str x.email == Value.str u2.email)).isSome = true := by
        rw [List.find?_isSome]
        exact ⟨u2, hmem, by simp⟩
      simp [hneq, hsome]
    simp [update_user, hfind, hval, hau, hae, Payload.isEmpty]

theorem c8_witness :
    (update_user sampleStore 4 1
        [("username", Value.str "alice"), ("email", Value.str "alice@example.com")]).1
      = Resp.ok 200 { aliceUser with updated_at := 4 }
    ∧ update_user sampleStore 4 1 [("username", Value.str "bobby")]
        = (Resp.err 409 "Username already exists", sampleStore, some aliceUser)
    ∧ update_user sampleStore 4 1 [("email", Value.str "bob@example.com")]
        = (Resp.err 409 "Email already exists", sampleStore, some aliceUser) := by
  have h := c8_update_user_conflicts sampleStore 4 aliceUser (by decide)
  exact ⟨h.1 (by decide) (by decide),
    h.2.1 bobUser (by decide) (by decide) (by decide),
    h.2.2 bobUser (by decide) (by decide) (by decide)⟩

/-- C3, amended: the JSON list endpoints return a 400 error with the
offending value on an unrecognized non-empty status or priority filter — the
priority case whenever the status filter step itself passed (absent, empty or
valid) — while the web dashboard task list instead records a flash message
('Invalid status filter' / 'Invalid priority filter') and returns the listing
computed with that filter ignored (see the counterexample). -/
theorem c3_invalid_filter :
    (∀ (s : Store) (page pp uid : Option Int) (pr : Option String) (st : String),
        st ≠ "" → TaskStatus.ofString? st = none →
        get_tasks s page pp uid (some st) pr = Resp.err 400 ("Invalid status: " ++ st))
    ∧ (∀ (s : Store) (page pp uid : Option Int) (st : Option String) (q1 : List Task)
        (pr : String),
        filterByStatus (filterByUser s.tasks uid) st = .ok q1 →
        pr ≠ "" → TaskPriority.ofString? pr = none →
        get_tasks s page pp uid st (some pr) = Resp.err 400 ("Invalid priority: " ++ pr))
    ∧ (∀ (s : Store) (uid : Int) (page pp : Option Int) (pr : Option String) (st : String)
        (u : User),
        s.users.find? (fun x => x.id == uid) = some u →
        st ≠ "" → TaskStatus.ofString? st = none →
        get_user_tasks s uid page pp (some st) pr = Resp.err 400 ("Invalid status: " ++ st))
    ∧ (∀ (s : Store) (uid : Int) (page pp : Option Int) (st : Option String)
        (q1 : List Task) (pr : String) (u : User),
        s.users.find? (fun x => x.id == uid) = some u →
        filterByStatus (s.tasks.filter (fun t => t.user_id == uid)) st = .ok q1 →
        pr ≠ "" → TaskPriority.ofString? pr = none →
        get_user_tasks s uid page pp st (some pr)
          = Resp.err 400 ("Invalid priority: " ++ pr))
    ∧ (∀ (s : Store) (page : Option Int) (pr : Option String) (uid : Option Int)
        (st : String),
        st ≠ "" → TaskStatus.ofString? st = none →
        web_tasks s page (some st) pr uid
          = ("Invalid status filter" :: (web_tasks s page none pr uid).1,
             (web_tasks s page none pr uid).2))
    ∧ (∀ (s : Store) (page : Option Int) (st : Option String) (uid : Option Int)
        (pr : String),
        pr ≠ "" → TaskPriority.ofString? pr = none →
        web_tasks s page st (some pr) uid
          = ((web_tasks s page st none uid).1 ++ ["Invalid priority filter"],
             (web_tasks s page st none uid).2)) := by
  refine ⟨?_, ?_, ?_, ?_, ?_, ?_⟩
  · intro s page pp uid pr st hne hof
    have hb : (st == "") = false := by simp [hne]
    simp [get_tasks, filterByStatus, hb, hof]
  · intro s page pp uid st q1 pr hf1 hne hof
    have hb : (pr == "") = false := by simp [hne]
    simp [get_tasks, hf1, filterByPriority, hb, hof]
  · intro s uid page pp pr st u hfind hne hof
    have hb : (st == "") = false := by simp [hne]
    simp [get_user_tasks, hfind, filterByStatus, hb, hof]
  · intro s uid page pp st q1 pr u hfind hf1 hne hof
    have hb : (pr == "") = false := by simp [hne]
    simp [get_user_tasks, hfind, hf1, filterByPriority, hb, hof]
  · intro s page pr uid st hne hof
    have hb : (st == "") = false := by simp [hne]
    cases hp : filterByPriority s.tasks pr with
    | ok q => simp [web_tasks, filterByStatus, hb, hof, hp]
    | error m => simp [web_tasks, filterByStatus, hb, hof, hp]
  · intro s page st uid pr hne hof
    have hb : (pr == "") = false := by simp [hne]
    cases hs1 : filterByStatus s.tasks st with
    | ok q => simp [web_tasks, hs1, filterByPriority, hb, hof]
    | error m => simp [web_tasks, hs1, filterByPriority, hb, hof]

theorem c3_witness :
    get_tasks sampleStore none none none (some "bogus") none
      = Resp.err 400 ("Invalid status: " ++ "bogus")
    ∧ get_tasks sampleStore none none none (some "pending") (some "bogus")
      = Resp.err 400 ("Invalid priority: " ++ "bogus")
    ∧ get_user_tasks sampleStore 1 none none (some "bogus") none
      = Resp.err 400 ("Invalid status: " ++ "bogus")
    ∧ get_user_tasks sampleStore 1 none none (some "pending") (some "bogus")
      = Resp.err 400 ("Invalid priority: " ++ "bogus")
    ∧ web_tasks sampleStore none (some "bogus") none none
      = ("Invalid status filter" :: (web_tasks sampleStore none none none none).1,
         (web_tasks sampleStore none none none none).2)
    ∧ web_tasks sampleStore none (some "pending") (some "bogus") none
      = ((web_tasks sampleStore none (some "pending") none none).1
            ++ ["Invalid priority filter"],
         (web_tasks sampleStore none (some "pending") none none).2) := by
  exact ⟨c3_invalid_filter.1 sampleStore none none none none "bogus" (by decide) rfl,
    c3_invalid_filter.2.1 sampleStore none none none (some "pending") [sampleTask] "bogus"
      rfl (by decide) rfl,
    c3_invalid_filter.2.2.1 sampleStore 1 none none none "bogus" aliceUser (by decide)
      (by decide) rfl,
    c3_invalid_filter.2.2.2.1 sampleStore 1 none none (some "pending") [sampleTask] "bogus"
      aliceUser (by decide) rfl (by decide) rfl,
    c3_invalid_filter.2.2.2.2.1 sampleStore none none none "bogus" (by decide) rfl,
    c3_invalid_filter.2.2.2.2.2 sampleStore none (some "pending") none "bogus"
      (by decide) rfl⟩

/-- Ceiling division multiplied back out covers the dividend. -/
theorem ceil_mul_ge (a b : Nat) (hb : 0 < b) : a ≤ ((a + b - 1) / b) * b := by
  rcases Nat.eq_zero_or_pos a with rfl | ha
  · simp
  · obtain ⟨c, rfl⟩ : ∃ c, a = c + 1 := ⟨a - 1, by omega⟩
    have hrw : c + 1 + b - 1 = c + b := by omega
    rw [hrw, Nat.add_div_right _ hb]
    have hdm := Nat.div_add_mod c b
    have hm : c % b < b := Nat.mod_lt _ hb
    calc c + 1 ≤ b * (c / b) + b := by linarith
      _ = (c / b + 1) * b := by ring

/-- A requested page beyond the reported page count always yields an empty
item window under the non-strict paginator. -/
theorem paginate_beyond {α : Type} (xs : List α) (page per_page : Int)
    (h : ((paginate xs page per_page).2.pages : Int) < page) :
    (paginate xs page per_page).1 = [] := by
  have hpages : (paginate xs page per_page).2.pages
      = (xs.length + per_page.toNat - 1) / per_page.toNat := rfl
  have hpage1 : ¬ page < 1 := by
    have hnn : (0 : Int) ≤ ((paginate xs page per_page).2.pages : Int) := Int.ofNat_nonneg _
    omega
  show (xs.drop (((if page < 1 then 1 else page).toNat - 1) * per_page.toNat)).take
      per_page.toNat = []
  rw [if_neg hpage1]
  by_cases hpp : per_page.toNat = 0
  · rw [hpp]
    simp
  · have hb : 0 < per_page.toNat := Nat.pos_of_ne_zero hpp
    have hp2 : ((xs.length + per_page.toNat - 1) / per_page.toNat) + 1 ≤ page.toNat := by
      rw [hpages] at h
      omega
    have hq := ceil_mul_ge xs.length per_page.toNat hb
    have hmul : ((xs.length + per_page.toNat - 1) / per_page.toNat) * per_page.toNat
        ≤ (page.toNat - 1) * per_page.toNat :=
      Nat.mul_le_mul_right _ (by omega)
    have hlen : xs.length ≤ (page.toNat - 1) * per_page.toNat := by omega
    rw [List.drop_eq_nil_of_le hlen]
    simp

/-- C4: list responses always clamp the effective per_page to at most 100, and
a page beyond the reported page count yields a 200 response with an empty item
list whose metadata still carries the full total and the ceil(total/per_page)
page count. -/
theorem c4_pagination_clamp :
    (∀ (s : Store) (page per_page : Option Int),
        get_users s page per_page
          = Resp.ok 200 (paginate s.users (page.getD 1) (min (per_page.getD 10) 100)))
    ∧ (∀ (s : Store) (page per_page : Option Int) (items : List User) (meta : PageMeta),
        get_users s page per_page = Resp.ok 200 (items, meta) →
        meta.per_page ≤ 100 ∧ meta.total = s.users.length
        ∧ meta.pages = (meta.total + meta.per_page.toNat - 1) / meta.per_page.toNat
        ∧ ((meta.pages : Int) < page.getD 1 → items = []))
    ∧ (∀ (s : Store) (page per_page user_id : Option Int) (st pr : Option String)
        (items : List Task) (meta : PageMeta),
        get_tasks s page per_page user_id st pr = Resp.ok 200 (items, meta) →
        meta.per_page ≤ 100
        ∧ meta.pages = (meta.total + meta.per_page.toNat - 1) / meta.per_page.toNat
        ∧ ((meta.pages : Int) < page.getD 1 → items = [])) := by
  refine ⟨?_, ?_, ?_⟩
  · intro s page per_page
    rfl
  · intro s page per_page items meta h
    have hx : Resp.ok (α := List User × PageMeta) 200
        (paginate s.users (page.getD 1) (min (per_page.getD 10) 100))
        = Resp.ok 200 (items, meta) := h
    injection hx with hcode hbody
    have hitems : items = (paginate s.users (page.getD 1) (min (per_page.getD 10) 100)).1 := by
      rw [hbody]
    have hmeta : meta = (paginate s.users (page.getD 1) (min (per_page.getD 10) 100)).2 := by
      rw [hbody]
    refine ⟨?_, ?_, ?_, ?_⟩
    · rw [hmeta]
      exact min_le_right _ _
    · rw [hmeta]; rfl
    · rw [hmeta]; rfl
    · intro hlt
      rw [hitems]
      apply paginate_beyond
      rw [← hmeta]
      exact hlt
  · intro s page per_page user_id st pr items meta h
    cases hf1 : filterByStatus (filterByUser s.tasks user_id) st with
    | error m => simp [get_tasks, hf1] at h
    | ok q1 =>
      cases hf2 : filterByPriority q1 pr with
      | error m => simp [get_tasks, hf1, hf2] at h
      | ok q2 =>
        have hx : Resp.ok (α := List Task × PageMeta) 200
            (paginate (sortByCreatedDesc q2) (page.getD 1) (min (per_page.getD 10) 100))
            = Resp.ok 200 (items, meta) := by
          rw [← h]
          simp [get_tasks, hf1, hf2]
        injection hx with hcode hbody
        have hitems : items
            = (paginate (sortByCreatedDesc q2) (page.getD 1)
                (min (per_page.getD 10) 100)).1 := by
          rw [hbody]
        have hmeta : meta
            = (paginate (sortByCreatedDesc q2) (page.getD 1)
                (min (per_page.getD 10) 100)).2 := by
          rw [hbody]
        refine ⟨?_, ?_, ?_⟩
        · rw [hmeta]
          exact min_le_right _ _
        · rw [hmeta]; rfl
        · intro hlt
          rw [hitems]
          apply paginate_beyond
          rw [← hmeta]
          exact hlt

theorem c4_witness :
    ({ page := 5, per_page := 100, total := 2, pages := 1 : PageMeta }).per_page ≤ 100
    ∧ (([] : List User) = []) := by
  have h := c4_pagination_clamp.2.1 sampleStore (some 5) (some 250) []
    { page := 5, per_page := 100, total := 2, pages := 1 } rfl
  exact ⟨h.1, h.2.2.2 (by decide)⟩

/-- C10: a user_id filter value of 0 and an empty-string status or priority
parameter are all falsy, so every task-listing operation treats them as no
filter at all — the result equals the unfiltered listing, not an empty set and
not an invalid-enum error. -/
theorem c10_falsy_filters :
    ∀ (s : Store) (page pp uid : Option Int) (st pr : Option String),
      get_tasks s page pp (some 0) st pr = get_tasks s page pp none st pr
      ∧ get_tasks s page pp uid (some "") pr = get_tasks s page pp uid none pr
      ∧ get_tasks s page pp uid st (some "") = get_tasks s page pp uid st none
      ∧ web_tasks s page st pr (some 0) = web_tasks s page st pr none
      ∧ web_tasks s page (some "") pr uid = web_tasks s page none pr uid
      ∧ web_tasks s page st (some "") uid = web_tasks s page st none uid
      ∧ (∀ u : Int, get_user_tasks s u page pp (some "") pr
          = get_user_tasks s u page pp none pr)
      ∧ (∀ u : Int, get_user_tasks s u page pp st (some "")
          = get_user_tasks s u page pp st none) := by
  intro s page pp uid st pr
  exact ⟨rfl, rfl, rfl, rfl, rfl, rfl, fun u => rfl, fun u => rfl⟩

end TaskManager
